import Mathlib

/-!
Verification of the knock-ssh connection demultiplexer (`src/proxy-libevent.c`).

The proxy listens on one public port, inspects the first bytes of each new
connection (or the absence of bytes within `knock_timeout`), and routes the
connection to either a hidden backend port (when the configured knock
signature is observed) or a normal backend port.  Once routed, bytes are
forwarded bidirectionally through a pair of linked bufferevents until either
side closes.

The development below is a shallow embedding of that C file:

* bytes are `Nat`; an evbuffer is a list of contiguous chunks
  (`List (List Nat)`), mirroring libevent's chain of extents;
* `evbuffer_peek1` and `evbuffer_drain` model the libevent primitives the
  code calls (with `n_vec = 1` and `start_at = NULL`, as used at the call
  site);
* the detector callbacks `initial_read` / `initial_error` / `initial_accept`
  become pure functions from the buffered input to a routing decision;
* the active pipe (`pipe_read` / `pipe_error` and the `struct otherside`
  pair) becomes a step function on an explicit `PipeState`, emitting a list
  of `Act`s recording which endpoint each operation touches.
-/

/-- Mirror of `struct config` (knock-common.h) as read by the proxy core:
the knock signature bytes with their explicit length, the three ports, the
two timeout durations (in seconds), and the verbosity flag. -/
structure Config where
  knock_value : List Nat
  knock_size : Nat
  external_port : Nat
  normal_port : Nat
  hidden_port : Nat
  knock_timeout : Nat
  default_timeout : Nat
  verbose : Bool

/-- `MAX_RECV_BUF_DEFAULT` is `2 << 16` in the C source. -/
def MAX_RECV_BUF_DEFAULT : Nat := 2 <<< 16

/-- Model of libevent's `evbuffer_peek(buf, len, NULL, v, 1)`: walk the chain
of extents, returning the number of extents the peek touches (`idx` in the
libevent source) together with the contents of the first extent (`v[0]`).
With one output vector: a request for zero bytes stops before filling any
extent (result 0); otherwise the first extent is filled, and the result is 1
when that extent already covers `len` bytes or the chain ends there, and 2
as soon as a second extent would be needed. -/
def evbuffer_peek1 (chunks : List (List Nat)) (len : Nat) : Nat × List Nat :=
  match chunks with
  | [] => (0, [])
  | c :: rest =>
    if len = 0 then (0, [])
    else if len ≤ c.length then (1, c)
    else
      match rest with
      | [] => (1, c)
      | _ :: _ => (2, c)

/-- Model of `evbuffer_drain(buf, n)`: remove the first `n` bytes from the
front of the chain of extents. -/
def evbuffer_drain : List (List Nat) → Nat → List (List Nat)
  | [], _ => []
  | c :: rest, n =>
    if n = 0 then c :: rest
    else if n < c.length then c.drop n :: rest
    else evbuffer_drain rest (n - c.length)

/-- The routing decision of `initial_read` (lines 195-213): peek at the
input buffer; when the peek reports a single extent holding at least
`knock_size` bytes and `memcmp` finds the first `knock_size` bytes equal to
the configured `knock_value`, choose the hidden port and drain exactly
`knock_size` bytes; otherwise choose the normal port and leave the buffer
untouched.  Returns the chosen port together with the remaining buffer
handed on to `create_pipe`. -/
def initial_read (cfg : Config) (input : List (List Nat)) : Nat × List (List Nat) :=
  let pk := evbuffer_peek1 input cfg.knock_size
  if pk.1 = 1 ∧ cfg.knock_size ≤ pk.2.length then
    if pk.2.take cfg.knock_size = cfg.knock_value.take cfg.knock_size then
      (cfg.hidden_port, evbuffer_drain input cfg.knock_size)
    else (cfg.normal_port, input)
  else (cfg.normal_port, input)

/-- Outcome of the detection phase: either the connection is routed to a
backend port with some buffered bytes still pending, or the client endpoint
is discarded with no backend connection attempted. -/
inductive DetectOutcome where
  | route (port : Nat) (remaining : List (List Nat))
  | discarded
deriving DecidableEq

/-- `initial_error` (lines 215-226): a timeout event falls through to the
very same `initial_read` decision on whatever is currently buffered; any
other error frees the client bufferevent, attempting no backend
connection. -/
def initial_error (cfg : Config) (isTimeout : Bool) (input : List (List Nat)) :
    DetectOutcome :=
  if isTimeout then
    DetectOutcome.route (initial_read cfg input).1 (initial_read cfg input).2
  else DetectOutcome.discarded

/-- The observable configuration `initial_accept` gives a freshly accepted
connection: watermark bounds, whether reading is enabled, and the read and
write timeouts. -/
structure EndpointConfig where
  watermark_low : Nat
  watermark_high : Nat
  read_enabled : Bool
  read_timeout : Option Nat
  write_timeout : Option Nat
deriving DecidableEq

/-- `initial_accept` (lines 229-247) on an accepted descriptor `fd`: when
`fd > FD_SETSIZE` the connection is closed at once (`none`); otherwise a
bufferevent is created with read watermarks `[0, MAX_RECV_BUF_DEFAULT]`,
reading enabled, read timeout `knock_timeout` and no write timeout.
`fdsetsize` is the platform's `FD_SETSIZE`. -/
def initial_accept (cfg : Config) (fdsetsize : Nat) (fd : Nat) :
    Option EndpointConfig :=
  if fdsetsize < fd then none
  else
    some { watermark_low := 0
           watermark_high := MAX_RECV_BUF_DEFAULT
           read_enabled := true
           read_timeout := some cfg.knock_timeout
           write_timeout := none }

/-- A sample configuration used for concrete evaluations: the spec's worked
example (knock 0xDEADBEEF, hidden port 2222, normal port 22). -/
def cfg1 : Config :=
  { knock_value := [222, 173, 190, 239]
    knock_size := 4
    external_port := 8080
    normal_port := 22
    hidden_port := 2222
    knock_timeout := 5
    default_timeout := 60
    verbose := false }

/-- A configuration with an empty knock signature (`knock_size = 0`). -/
def cfgZero : Config :=
  { knock_value := []
    knock_size := 0
    external_port := 8080
    normal_port := 22
    hidden_port := 2222
    knock_timeout := 5
    default_timeout := 60
    verbose := false }

/-!
## The active pipe

`back_connection` (on success) pairs the client bufferevent `a` with the
backend bufferevent `b` through two `struct otherside` records.  The record
`ctx` attached to an endpoint holds `bev` (the peer's bufferevent, `NULL`
after the peer is torn down), `pair` (the peer's record), and
`other_timedout` (whether this endpoint's peer has signalled an idle
timeout not yet corroborated).  We model each pointer by a `Bool` recording
whether it is non-NULL, a freed record by `none`, and a freed bufferevent by
`alive := false`.
-/

/-- The two legs of a pipe: `a` is the client-facing endpoint, `b` the
backend-facing endpoint. -/
inductive Side where
  | a
  | b
deriving DecidableEq

/-- The peer of a side. -/
def Side.other : Side → Side
  | .a => .b
  | .b => .a

/-- One live bufferevent: whether it has been freed, its input and output
buffer contents, whether reading is enabled, and its read/write timeouts
(in seconds). -/
structure EndState where
  alive : Bool
  input : List Nat
  output : List Nat
  read_enabled : Bool
  read_timeout : Option Nat
  write_timeout : Option Nat
deriving DecidableEq

/-- `struct otherside`: `bev` and `pair` record whether the corresponding
pointers are non-NULL; `other_timedout` is the pending-timeout flag. -/
structure Ctx where
  bev : Bool
  pair : Bool
  other_timedout : Bool
deriving DecidableEq

/-- The state of one pipe: both endpoints and both `otherside` records
(`none` once `free(con)` has run). -/
structure PipeState where
  endA : EndState
  endB : EndState
  ctxA : Option Ctx
  ctxB : Option Ctx
deriving DecidableEq

def endOf : Side → PipeState → EndState
  | .a, st => st.endA
  | .b, st => st.endB

def ctxOf : Side → PipeState → Option Ctx
  | .a, st => st.ctxA
  | .b, st => st.ctxB

def setEnd : Side → EndState → PipeState → PipeState
  | .a, e, st => { st with endA := e }
  | .b, e, st => { st with endB := e }

def setCtx : Side → Option Ctx → PipeState → PipeState
  | .a, c, st => { st with ctxA := c }
  | .b, c, st => { st with ctxB := c }

def updateCtx (s : Side) (f : Ctx → Ctx) (st : PipeState) : PipeState :=
  setCtx s ((ctxOf s st).map f) st

/-- Operations a callback performs, tagged with the endpoint (or record)
they touch.  These let us state that no operation ever targets a freed
bufferevent or a freed `otherside` record. -/
inductive Act where
  | writeOut (s : Side) (bytes : List Nat)
  | drainIn (s : Side)
  | setFlag (s : Side) (v : Bool)
  | enableRead (s : Side)
  | setTimeouts (s : Side) (r w : Option Nat)
  | freeBev (s : Side)
  | freeCtx (s : Side)
deriving DecidableEq

/-- Events the event loop can deliver to a pipe: data readiness on a side
(carrying the newly arrived bytes), a timeout, or any other error. -/
inductive Ev where
  | read (s : Side) (bytes : List Nat)
  | timeout (s : Side)
  | err (s : Side)
deriving DecidableEq

/-- `pipe_read` (lines 80-89): if the peer bufferevent is still there
(`con->bev`), clear the peer record's pending-timeout flag and move the
whole input buffer into the peer's output buffer; otherwise drain the input
and drop it. -/
def pipe_read (s : Side) (bytes : List Nat) (st : PipeState) :
    PipeState × List Act :=
  match ctxOf s st with
  | none => (st, [])
  | some con =>
    let stIn := setEnd s { endOf s st with input := (endOf s st).input ++ bytes } st
    if con.bev then
      let st1 := updateCtx s.other (fun c => { c with other_timedout := false }) stIn
      let src := endOf s st1
      let dst := endOf s.other st1
      let st2 := setEnd s.other { dst with output := dst.output ++ src.input } st1
      let st3 := setEnd s { src with input := [] } st2
      (st3, [.setFlag s.other false, .writeOut s.other src.input])
    else
      (setEnd s { endOf s stIn with input := [] } stIn, [.drainIn s])

/-- The tail of `pipe_error` (lines 107-120): free our bufferevent; if the
peer bufferevent is still there, grant it a 1-second grace period on both
timeouts, re-enable its reading, and sever the peer record's `pair` and
`bev` pointers; finally free our own record. -/
def closeSide (s : Side) (con : Ctx) (st : PipeState) (acts : List Act) :
    PipeState × List Act :=
  let st1 := setEnd s { endOf s st with alive := false } st
  if con.bev then
    let peer := endOf s.other st1
    let st2 := setEnd s.other
      { peer with read_timeout := some 1, write_timeout := some 1,
                  read_enabled := true } st1
    let st3 := updateCtx s.other (fun c => { c with pair := false, bev := false }) st2
    (setCtx s none st3,
      acts ++ [.freeBev s, .setTimeouts s.other (some 1) (some 1),
               .enableRead s.other, .freeCtx s])
  else
    (setCtx s none st1, acts ++ [.freeBev s, .freeCtx s])

/-- `pipe_error` (lines 91-121).  On a timeout: re-enable our reading; if
the peer bufferevent is still there, set the peer record's pending-timeout
flag, and when our own record shows the peer has not itself timed out,
return without closing anything.  In every other case fall through to
`closeSide`. -/
def pipe_error (isTimeout : Bool) (s : Side) (st : PipeState) :
    PipeState × List Act :=
  match ctxOf s st with
  | none => (st, [])
  | some con =>
    if isTimeout then
      let st1 := setEnd s { endOf s st with read_enabled := true } st
      if con.bev then
        let st2 := updateCtx s.other (fun c => { c with other_timedout := true }) st1
        if !con.other_timedout then
          (st2, [.enableRead s, .setFlag s.other true])
        else
          closeSide s con st2 [.enableRead s, .setFlag s.other true]
      else
        closeSide s con st1 [.enableRead s]
    else
      closeSide s con st []

/-- One event-loop dispatch on a pipe.  A freed bufferevent receives no
callbacks (libevent cancels delivery at `bufferevent_free`), so events on a
dead side are no-ops. -/
def step (ev : Ev) (st : PipeState) : PipeState × List Act :=
  match ev with
  | .read s bytes => if (endOf s st).alive then pipe_read s bytes st else (st, [])
  | .timeout s => if (endOf s st).alive then pipe_error true s st else (st, [])
  | .err s => if (endOf s st).alive then pipe_error false s st else (st, [])

/-- Run a list of events through the pipe. -/
def run : List Ev → PipeState → PipeState
  | [], st => st
  | ev :: rest, st => run rest (step ev st).1

/-- The pipe state `back_connection` (lines 143-160) establishes on a
successful backend connect: both `otherside` records fully linked with
clear flags, reading enabled on both bufferevents, the idle read timeout on
both with no write timeout, and the bytes the client had buffered before
pairing (`pending`) already moved into the backend's output buffer by
`bufferevent_read_buffer(other_side, bufferevent_get_output(bev))`. -/
def paired (cfg : Config) (pending : List Nat) : PipeState :=
  { endA := { alive := true, input := [], output := [], read_enabled := true,
              read_timeout := some cfg.default_timeout, write_timeout := none }
    endB := { alive := true, input := [], output := pending, read_enabled := true,
              read_timeout := some cfg.default_timeout, write_timeout := none }
    ctxA := some { bev := true, pair := true, other_timedout := false }
    ctxB := some { bev := true, pair := true, other_timedout := false } }

/-!
## Safety and liveness predicates over pipe states
-/

/-- Both endpoints are live and fully cross-linked: the ACTIVE state of a
Link. -/
def bothActive (st : PipeState) : Bool :=
  (endOf .a st).alive && (endOf .b st).alive &&
    (match ctxOf .a st, ctxOf .b st with
     | some ca, some cb => ca.bev && cb.bev
     | _, _ => false)

/-- The pending-timeout flag stored on a side's `otherside` record: whether
this side's peer has signalled an uncorroborated timeout. -/
def flagOf (s : Side) (st : PipeState) : Bool :=
  match ctxOf s st with
  | some c => c.other_timedout
  | none => false

/-- Consistency of one `otherside` record with its peer endpoint: the `bev`
pointer is non-NULL exactly when the peer bufferevent has not been freed,
and `pair` is severed together with `bev`. -/
def ctxConsistent (c : Option Ctx) (peerAlive : Bool) : Bool :=
  match c with
  | none => true
  | some c => (c.bev == peerAlive) && (c.pair == c.bev)

/-- The structural invariant every reachable pipe state satisfies: a side's
record exists exactly while its bufferevent is live, and each record's
pointers are consistent with the peer's liveness. -/
def PipeInv (st : PipeState) : Bool :=
  ((ctxOf .a st).isSome == (endOf .a st).alive) &&
  ((ctxOf .b st).isSome == (endOf .b st).alive) &&
  ctxConsistent (ctxOf .a st) (endOf .b st).alive &&
  ctxConsistent (ctxOf .b st) (endOf .a st).alive

/-- An operation is safe in a state when its target has not been freed:
writes, drains, read-enables and timeout changes must hit a live
bufferevent, `freeBev` must not double-free, flag writes and `freeCtx` must
hit a record that still exists. -/
def actLive (st : PipeState) : Act → Bool
  | .writeOut s _ => (endOf s st).alive
  | .drainIn s => (endOf s st).alive
  | .setFlag s _ => (ctxOf s st).isSome
  | .enableRead s => (endOf s st).alive
  | .setTimeouts s _ _ => (endOf s st).alive
  | .freeBev s => (endOf s st).alive
  | .freeCtx s => (ctxOf s st).isSome

/-- Every operation one dispatch performs is safe in the state it starts
from (within a dispatch, frees happen after every other touch of the same
object, matching the C control flow). -/
def stepSafe (ev : Ev) (st : PipeState) : Bool :=
  ((step ev st).2).all (actLive st)

/-- Every operation along a whole event trace is safe in the state at which
it runs. -/
def traceSafe : List Ev → PipeState → Bool
  | [], _ => true
  | ev :: rest, st => stepSafe ev st && traceSafe rest (step ev st).1

/-!
## Fidelity helpers: pure-read traces
-/

/-- Interpret a list of (side, arriving bytes) pairs as read events. -/
def readsOf : List (Side × List Nat) → List Ev
  | [] => []
  | (s, bs) :: rest => Ev.read s bs :: readsOf rest

/-- The concatenation, in arrival order, of all bytes written on side `s`
in a trace of reads. -/
def sentOn (s : Side) : List (Side × List Nat) → List Nat
  | [] => []
  | (s', bs) :: rest => if s' = s then bs ++ sentOn s rest else sentOn s rest

/-!
## Backend connector
-/

/-- The event libevent delivers to `back_connection` after a non-blocking
connect: either `BEV_EVENT_CONNECTED` or `BEV_EVENT_ERROR`. -/
inductive BackendEv where
  | connected
  | errorEv
deriving DecidableEq

/-- Outcome of the backend handshake: a live pipe, or both bufferevents
freed (closing the client connection). -/
inductive ConnectResult where
  | piped (st : PipeState)
  | closedBoth
deriving DecidableEq

/-- `back_connection` (lines 140-167): on `BEV_EVENT_CONNECTED`, link the
two endpoints, flush the client's already-buffered bytes into the backend's
output buffer, enable reading on both, and apply the idle read timeout to
both; on `BEV_EVENT_ERROR`, free the backend bufferevent and the client
bufferevent. -/
def back_connection (cfg : Config) (ev : BackendEv) (pending : List Nat) :
    ConnectResult × List Act :=
  match ev with
  | .connected =>
    (.piped (paired cfg pending),
     [.enableRead .a, .writeOut .b pending, .enableRead .b,
      .setTimeouts .b (some cfg.default_timeout) none,
      .setTimeouts .a (some cfg.default_timeout) none])
  | .errorEv => (.closedBoth, [.freeBev .b, .freeBev .a])

/-- `create_pipe` (lines 169-189): when `bufferevent_socket_connect` fails
synchronously, both bufferevents are freed on the spot; otherwise the
outcome is decided by the asynchronous event delivered to
`back_connection`. -/
def create_pipe (cfg : Config) (syncFail : Bool) (ev : BackendEv)
    (pending : List Nat) : ConnectResult × List Act :=
  if syncFail then (.closedBoth, [.freeBev .b, .freeBev .a])
  else back_connection cfg ev pending

/-- No operation in the list writes bytes into any output buffer. -/
def noBackendWrite (acts : List Act) : Bool :=
  acts.all fun a =>
    match a with
    | .writeOut _ _ => false
    | _ => true

/-!
## Concrete evaluations
-/

example : initial_read cfg1 [[222, 173, 190, 239, 104, 105]] =
    (2222, [[104, 105]]) := by decide

example : initial_read cfg1 [[97, 98, 99, 100]] = (22, [[97, 98, 99, 100]]) := by
  decide

example : initial_read cfg1 [[222, 173], [190, 239]] =
    (22, [[222, 173], [190, 239]]) := by decide

example : initial_read cfgZero [[1, 2, 3]] = (22, [[1, 2, 3]]) := by decide

example : initial_read cfg1 [] = (22, []) := by decide

example :
    (endOf .a (run [.timeout .a] (paired cfg1 []))).alive = true ∧
    (endOf .b (run [.timeout .a] (paired cfg1 []))).alive = true := by decide

example :
    (endOf .a (run [.timeout .a, .timeout .b] (paired cfg1 []))).alive = true ∧
    (endOf .b (run [.timeout .a, .timeout .b] (paired cfg1 []))).alive = false := by
  decide

example :
    (endOf .b (run [.timeout .a, .read .a [7], .timeout .b] (paired cfg1 []))).alive
      = true := by decide

example :
    (endOf .b (run [.read .a [1, 2], .read .a [3]] (paired cfg1 [0]))).output
      = [0, 1, 2, 3] := by decide

/-!
## Invariant preservation and trace lemmas
-/

set_option maxHeartbeats 1000000 in
theorem step_preserves (ev : Ev) (st : PipeState) (h : PipeInv st = true) :
    stepSafe ev st = true ∧ PipeInv (step ev st).1 = true := by
  obtain ⟨⟨ea, ia, oa, ra, ta, wa⟩, ⟨eb, ib, ob, rb, tb, wb⟩, ca, cb⟩ := st
  cases ea <;> cases eb <;>
  rcases ca with _ | ⟨cab, cap, cat⟩ <;>
  rcases cb with _ | ⟨cbb, cbp, cbt⟩ <;>
  simp_all [PipeInv, ctxConsistent, endOf, ctxOf] <;>
  rcases ev with ⟨_ | _, bytes⟩ | ⟨_ | _⟩ | ⟨_ | _⟩ <;>
  simp [stepSafe, step, pipe_read, pipe_error, closeSide, endOf, ctxOf, setEnd,
    setCtx, updateCtx, Side.other, actLive, PipeInv, ctxConsistent] <;>
  try (cases cat <;> cases cbt <;>
    simp [stepSafe, step, pipe_read, pipe_error, closeSide, endOf, ctxOf, setEnd,
      setCtx, updateCtx, Side.other, actLive, PipeInv, ctxConsistent])

theorem traceSafe_of_inv (evs : List Ev) :
    ∀ st : PipeState, PipeInv st = true → traceSafe evs st = true := by
  induction evs with
  | nil => intro st _; rfl
  | cons ev rest ih =>
    intro st h
    have hs := step_preserves ev st h
    simp [traceSafe, hs.1, ih _ hs.2]

theorem inv_paired (cfg : Config) (pending : List Nat) :
    PipeInv (paired cfg pending) = true := rfl

theorem run_reads (tr : List (Side × List Nat)) :
    ∀ st : PipeState, bothActive st = true →
      (endOf .a st).input = [] → (endOf .b st).input = [] →
      bothActive (run (readsOf tr) st) = true ∧
      (endOf .a (run (readsOf tr) st)).input = [] ∧
      (endOf .b (run (readsOf tr) st)).input = [] ∧
      (endOf .b (run (readsOf tr) st)).output
        = (endOf .b st).output ++ sentOn .a tr ∧
      (endOf .a (run (readsOf tr) st)).output
        = (endOf .a st).output ++ sentOn .b tr := by
  induction tr with
  | nil => intro st h ha hb; simp [readsOf, run, sentOn, h, ha, hb]
  | cons p rest ih =>
    intro st h ha hb
    obtain ⟨s, bs⟩ := p
    obtain ⟨⟨ea, ia, oa, ra, ta, wa⟩, ⟨eb, ib, ob, rb, tb, wb⟩, ca, cb⟩ := st
    rcases ca with _ | ⟨cab, cap, cat⟩ <;> rcases cb with _ | ⟨cbb, cbp, cbt⟩ <;>
      simp_all [bothActive, endOf, ctxOf] <;>
    cases s <;>
      simp_all [readsOf, run, step, pipe_read, endOf, ctxOf, setEnd, setCtx,
        updateCtx, Side.other, sentOn]

/-!
## Detector claims
-/

/-- C1 (amended): for a nonzero-length knock signature (`knock_value` of
length `knock_size`) and a byte sequence `B` buffered as a single extent
when the decision runs: if the first `knock_size` bytes of `B` equal the
signature, the connection is routed to the hidden port and the remaining
buffer content is `B` with exactly that prefix removed; otherwise it is
routed to the normal port with the buffer untouched. -/
theorem knock_routing (cfg : Config) (B : List Nat)
    (hk : 0 < cfg.knock_size) (hv : cfg.knock_value.length = cfg.knock_size) :
    (B.take cfg.knock_size = cfg.knock_value →
      (initial_read cfg [B]).1 = cfg.hidden_port ∧
      (initial_read cfg [B]).2.flatten = B.drop cfg.knock_size) ∧
    (B.take cfg.knock_size ≠ cfg.knock_value →
      initial_read cfg [B] = (cfg.normal_port, [B])) := by
  have hk0 : cfg.knock_size ≠ 0 := Nat.pos_iff_ne_zero.mp hk
  have hvt : cfg.knock_value.take cfg.knock_size = cfg.knock_value := by
    rw [← hv]; exact List.take_length _
  have hpk : evbuffer_peek1 [B] cfg.knock_size = (1, B) := by
    simp only [evbuffer_peek1, if_neg hk0]
    split <;> rfl
  constructor
  · intro hm
    have hlen : cfg.knock_size ≤ B.length := by
      have hl := congrArg List.length hm
      simp only [List.length_take, hv] at hl
      omega
    have hres : initial_read cfg [B]
        = (cfg.hidden_port, evbuffer_drain [B] cfg.knock_size) := by
      simp [initial_read, hpk, hlen, hvt, hm]
    refine ⟨by rw [hres], ?_⟩
    rw [hres]
    by_cases hlt : cfg.knock_size < B.length
    · simp [evbuffer_drain, hk0, hlt]
    · have hble : B.length ≤ cfg.knock_size := Nat.not_lt.mp hlt
      have hd : B.drop cfg.knock_size = [] := List.drop_eq_nil_of_le hble
      simp [evbuffer_drain, hk0, hlt, hd]
  · intro hne
    by_cases hlen : cfg.knock_size ≤ B.length
    · have hinner : ¬ B.take cfg.knock_size = cfg.knock_value.take cfg.knock_size := by
        rw [hvt]; exact hne
      simp [initial_read, hpk, hlen, hinner]
    · simp [initial_read, hpk, hlen]

/-- C1 counterexample: with `knock_size = 0` (empty knock signature) the
first `knock_size` bytes of the arriving data equal the configured
signature, yet the connection is routed to the normal port, not the hidden
port. -/
theorem knock_routing_cex :
    List.take cfgZero.knock_size [104] = cfgZero.knock_value ∧
    (initial_read cfgZero [[104]]).1 = cfgZero.normal_port ∧
    cfgZero.normal_port ≠ cfgZero.hidden_port := by decide

theorem knock_routing_witness :
    (initial_read cfg1 [[222, 173, 190, 239, 104, 105]]).1 = cfg1.hidden_port ∧
    (initial_read cfg1 [[222, 173, 190, 239, 104, 105]]).2.flatten = [104, 105] ∧
    initial_read cfg1 [[97, 98, 99, 100]]
      = (cfg1.normal_port, [[97, 98, 99, 100]]) := by
  have h1 := knock_routing cfg1 [222, 173, 190, 239, 104, 105] (by decide) (by decide)
  have h2 := knock_routing cfg1 [97, 98, 99, 100] (by decide) (by decide)
  refine ⟨(h1.1 (by decide)).1, ?_, h2.2 (by decide)⟩
  rw [(h1.1 (by decide)).2]
  decide

/-- C4: a knock-detection timeout is handled by the very same decision as a
readiness event on the currently buffered bytes; with nothing buffered it
selects the normal backend; a non-timeout error during detection discards
the client endpoint with no backend connection attempted. -/
theorem detector_timeout_eq_read (cfg : Config) (input : List (List Nat)) :
    initial_error cfg true input
      = DetectOutcome.route (initial_read cfg input).1 (initial_read cfg input).2 ∧
    initial_error cfg true [] = DetectOutcome.route cfg.normal_port [] ∧
    initial_error cfg false input = DetectOutcome.discarded := by
  refine ⟨rfl, ?_, rfl⟩
  simp [initial_error, initial_read, evbuffer_peek1]

/-- C8: an accepted connection whose descriptor exceeds `FD_SETSIZE` is
closed at once; every other accepted connection gets read watermarks
`[0, MAX_RECV_BUF_DEFAULT]` with `MAX_RECV_BUF_DEFAULT = 131072`, reads
enabled, read timeout `knock_timeout`, and no write timeout. -/
theorem accept_policy (cfg : Config) (fdsetsize fd : Nat) :
    MAX_RECV_BUF_DEFAULT = 131072 ∧
    initial_accept cfg fdsetsize fd
      = if fdsetsize < fd then none
        else some { watermark_low := 0, watermark_high := 131072,
                    read_enabled := true,
                    read_timeout := some cfg.knock_timeout,
                    write_timeout := none } := ⟨rfl, rfl⟩

/-- C9: the knock comparison looks only at the first contiguous extent of
the input buffer: when the first extent holds fewer than `knock_size` bytes,
the connection goes to the normal port with nothing drained, even if the
first `knock_size` bytes of the buffered data (across extents) equal the
signature. -/
theorem split_knock_goes_normal (cfg : Config) (c1 c2 : List Nat)
    (rest : List (List Nat)) (hshort : c1.length < cfg.knock_size)
    (hm : ((c1 :: c2 :: rest).flatten).take cfg.knock_size = cfg.knock_value) :
    initial_read cfg (c1 :: c2 :: rest) = (cfg.normal_port, c1 :: c2 :: rest) := by
  have hk0 : cfg.knock_size ≠ 0 := by omega
  have hpk : evbuffer_peek1 (c1 :: c2 :: rest) cfg.knock_size = (2, c1) := by
    simp only [evbuffer_peek1, if_neg hk0]
    rw [if_neg (by omega)]
  simp [initial_read, hpk]

theorem split_knock_goes_normal_witness :
    initial_read cfg1 [[222, 173], [190, 239]]
      = (cfg1.normal_port, [[222, 173], [190, 239]]) :=
  split_knock_goes_normal cfg1 [222, 173] [190, 239] [] (by decide) (by decide)

/-- C10: with `knock_size = 0` the peek never reports the single extent the
match requires, so every connection is routed to the normal port with its
buffer untouched, whether decided by readiness or by the detection
timeout. -/
theorem zero_knock_normal (cfg : Config) (input : List (List Nat))
    (hk : cfg.knock_size = 0) :
    initial_read cfg input = (cfg.normal_port, input) ∧
    initial_error cfg true input = DetectOutcome.route cfg.normal_port input := by
  have h1 : initial_read cfg input = (cfg.normal_port, input) := by
    cases input <;> simp [initial_read, evbuffer_peek1, hk]
  exact ⟨h1, by simp [initial_error, h1]⟩

theorem zero_knock_normal_witness :
    initial_read cfgZero [[1, 2, 3]] = (cfgZero.normal_port, [[1, 2, 3]]) ∧
    initial_error cfgZero true [[1, 2, 3]]
      = DetectOutcome.route cfgZero.normal_port [[1, 2, 3]] :=
  zero_knock_normal cfgZero [[1, 2, 3]] rfl

/-!
## Pipe claims
-/

/-- C2: on an ACTIVE Link, a one-sided idle timeout on endpoint `s` whose
own record shows the peer has not timed out leaves both endpoints live,
re-enables reading on `s`, and records only the pending-timeout flag on the
peer's record; a timeout closes `s` only when `s`'s record already shows
the peer timed out; and a readiness event on `s` clears the Link's record
that `s` had timed out. -/
theorem timeout_corroboration (st : PipeState) (s : Side) (bytes : List Nat)
    (h : bothActive st = true) :
    (flagOf s st = false →
      bothActive (run [Ev.timeout s] st) = true ∧
      (endOf s (run [Ev.timeout s] st)).read_enabled = true ∧
      flagOf s.other (run [Ev.timeout s] st) = true) ∧
    ((endOf s (run [Ev.timeout s] st)).alive = false → flagOf s st = true) ∧
    flagOf s.other (run [Ev.read s bytes] st) = false := by
  obtain ⟨⟨ea, ia, oa, ra, ta, wa⟩, ⟨eb, ib, ob, rb, tb, wb⟩, ca, cb⟩ := st
  rcases ca with _ | ⟨cab, cap, cat⟩ <;> rcases cb with _ | ⟨cbb, cbp, cbt⟩ <;>
    simp_all [bothActive, endOf, ctxOf] <;>
  cases s <;> cases cat <;> cases cbt <;>
    simp [run, step, pipe_error, pipe_read, closeSide, endOf, ctxOf, setEnd,
      setCtx, updateCtx, Side.other, flagOf, bothActive]

theorem timeout_corroboration_witness :
    bothActive (run [Ev.timeout Side.a] (paired cfg1 [])) = true ∧
    (endOf Side.a (run [Ev.timeout Side.a] (paired cfg1 []))).read_enabled = true ∧
    flagOf Side.b (run [Ev.timeout Side.a] (paired cfg1 [])) = true ∧
    flagOf Side.b (run [Ev.read Side.a [7]] (paired cfg1 [])) = false := by
  have h := timeout_corroboration (paired cfg1 []) Side.a [7] (by decide)
  have h1 := h.1 (by decide)
  exact ⟨h1.1, h1.2.1, h1.2.2, h.2.2⟩

/-- C3: from the moment the two endpoints are paired, along every possible
event trace, no operation ever targets a freed bufferevent or a freed
`otherside` record: whichever leg closes or errors first, the surviving leg
never writes into the torn-down peer. -/
theorem safe_asymmetric_close (cfg : Config) (pending : List Nat)
    (evs : List Ev) : traceSafe evs (paired cfg pending) = true :=
  traceSafe_of_inv evs (paired cfg pending) (inv_paired cfg pending)

/-- C5: once piped, over any sequence of readiness events with no error,
the backend endpoint's outbound bytes are exactly the client's pre-pairing
buffered bytes followed by everything the client sent, in order, and the
client endpoint's outbound bytes are exactly what the backend sent, in
order — no duplication, no loss, and the pipe stays active. -/
theorem pipe_fidelity (cfg : Config) (pending : List Nat)
    (tr : List (Side × List Nat)) :
    (endOf Side.b (run (readsOf tr) (paired cfg pending))).output
      = pending ++ sentOn Side.a tr ∧
    (endOf Side.a (run (readsOf tr) (paired cfg pending))).output
      = sentOn Side.b tr ∧
    bothActive (run (readsOf tr) (paired cfg pending)) = true := by
  have h := run_reads tr (paired cfg pending) rfl rfl rfl
  refine ⟨?_, ?_, h.1⟩
  · simpa [paired, endOf] using h.2.2.2.1
  · simpa [paired, endOf] using h.2.2.2.2

/-- C6: closing endpoint `s` (here on an error event) while its peer is
alive severs the peer record's references to `s` (the explicit gone
marker), grants the peer a 1-second grace period on both timeouts with
reading re-enabled, and frees `s`'s bufferevent and record; thereafter any
further timeout or error on the peer frees it unconditionally, leaving the
Link with zero live endpoints and both records discarded. -/
theorem drain_and_close (st : PipeState) (s : Side) (h : bothActive st = true) :
    (endOf s (run [Ev.err s] st)).alive = false ∧
    ctxOf s (run [Ev.err s] st) = none ∧
    (endOf s.other (run [Ev.err s] st)).alive = true ∧
    ctxOf s.other (run [Ev.err s] st)
      = some { bev := false, pair := false, other_timedout := flagOf s.other st } ∧
    (endOf s.other (run [Ev.err s] st)).read_timeout = some 1 ∧
    (endOf s.other (run [Ev.err s] st)).write_timeout = some 1 ∧
    (endOf s.other (run [Ev.err s] st)).read_enabled = true ∧
    (endOf s.other (run [Ev.err s, Ev.timeout s.other] st)).alive = false ∧
    ctxOf s.other (run [Ev.err s, Ev.timeout s.other] st) = none ∧
    ctxOf s (run [Ev.err s, Ev.timeout s.other] st) = none ∧
    (endOf s.other (run [Ev.err s, Ev.err s.other] st)).alive = false ∧
    ctxOf s.other (run [Ev.err s, Ev.err s.other] st) = none := by
  obtain ⟨⟨ea, ia, oa, ra, ta, wa⟩, ⟨eb, ib, ob, rb, tb, wb⟩, ca, cb⟩ := st
  rcases ca with _ | ⟨cab, cap, cat⟩ <;> rcases cb with _ | ⟨cbb, cbp, cbt⟩ <;>
    simp_all [bothActive, endOf, ctxOf] <;>
  cases s <;>
    simp [run, step, pipe_error, closeSide, endOf, ctxOf, setEnd, setCtx,
      updateCtx, Side.other, flagOf]

theorem drain_and_close_witness :
    (endOf Side.a (run [Ev.err Side.a] (paired cfg1 [5]))).alive = false ∧
    ctxOf Side.a (run [Ev.err Side.a] (paired cfg1 [5])) = none ∧
    (endOf Side.b (run [Ev.err Side.a] (paired cfg1 [5]))).alive = true ∧
    ctxOf Side.b (run [Ev.err Side.a] (paired cfg1 [5]))
      = some { bev := false, pair := false, other_timedout := false } ∧
    (endOf Side.b (run [Ev.err Side.a] (paired cfg1 [5]))).read_timeout = some 1 ∧
    (endOf Side.b (run [Ev.err Side.a] (paired cfg1 [5]))).write_timeout = some 1 ∧
    (endOf Side.b (run [Ev.err Side.a] (paired cfg1 [5]))).read_enabled = true ∧
    (endOf Side.b (run [Ev.err Side.a, Ev.timeout Side.b] (paired cfg1 [5]))).alive
      = false ∧
    ctxOf Side.b (run [Ev.err Side.a, Ev.timeout Side.b] (paired cfg1 [5])) = none ∧
    ctxOf Side.a (run [Ev.err Side.a, Ev.timeout Side.b] (paired cfg1 [5])) = none ∧
    (endOf Side.b (run [Ev.err Side.a, Ev.err Side.b] (paired cfg1 [5]))).alive
      = false ∧
    ctxOf Side.b (run [Ev.err Side.a, Ev.err Side.b] (paired cfg1 [5])) = none :=
  drain_and_close (paired cfg1 [5]) Side.a (by decide)

/-- C7: when the backend connection fails — synchronously at the connect
call or asynchronously via the error event — both the backend and the
client bufferevents are freed, no pipe is created, and no byte is ever
written toward any backend. -/
theorem connect_failure_isolation (cfg : Config) (pending : List Nat)
    (syncFail : Bool) (ev : BackendEv)
    (h : syncFail = true ∨ ev = BackendEv.errorEv) :
    (create_pipe cfg syncFail ev pending).1 = ConnectResult.closedBoth ∧
    noBackendWrite (create_pipe cfg syncFail ev pending).2 = true ∧
    Act.freeBev Side.a ∈ (create_pipe cfg syncFail ev pending).2 ∧
    Act.freeBev Side.b ∈ (create_pipe cfg syncFail ev pending).2 := by
  rcases h with h | h
  · subst h
    simp [create_pipe, noBackendWrite]
  · subst h
    cases syncFail <;> simp [create_pipe, back_connection, noBackendWrite]

theorem connect_failure_isolation_witness :
    (create_pipe cfg1 false BackendEv.errorEv [9]).1 = ConnectResult.closedBoth ∧
    noBackendWrite (create_pipe cfg1 false BackendEv.errorEv [9]).2 = true ∧
    Act.freeBev Side.a ∈ (create_pipe cfg1 false BackendEv.errorEv [9]).2 ∧
    Act.freeBev Side.b ∈ (create_pipe cfg1 false BackendEv.errorEv [9]).2 :=
  connect_failure_isolation cfg1 [9] false BackendEv.errorEv (Or.inr rfl)
